import Mathlib

/-!
Verification development for the AI-Solution-Dashboard repository
(`src/app.py`).  The definitions below are a shallow embedding of the
filter-to-aggregation pipeline of the Dash callback `update_dashboard`
and of the export callback `download_report`.

Embedding conventions:
* A timestamp is modelled as a natural number of seconds; the calendar
  date is `t / 86400` (mirroring `.dt.date`) and the hour of day is
  `t / 3600 % 24` (mirroring `.dt.hour`).
* pandas DataFrames are modelled as lists of records; boolean-mask row
  selection is `List.filter`.
* Monetary amounts, rates and statistics are modelled as rationals `ℚ`
  (exact arithmetic in place of IEEE floats; none of the verified
  claims depends on float rounding error).
* pandas `.std()` (sample standard deviation, `ddof=1`) is modelled by
  its square `sampleVar` (the sample variance) so as to stay inside
  `ℚ`; `none` models the NaN that pandas returns for a series of fewer
  than two elements.  Since `Real.sqrt` is strictly monotone on the
  nonnegatives, statements about the std (being zero, being undefined,
  coinciding between two code paths) are equivalent to the
  corresponding statements about `sampleVar`.
* pandas `groupby` sorts its keys; the group-key order is
  claim-irrelevant (only sums/counts per key are inspected), so string
  group keys use first-occurrence order (`List.dedup`) while the date
  axis of the summary statistics is kept sorted.
-/

/-- Calendar date (day number) of a timestamp, as in `timestamp.dt.date`. -/
def dateOf (t : Nat) : Nat := t / 86400

/-- Hour of day of a timestamp, as in `timestamp.dt.hour`. -/
def hourOf (t : Nat) : Nat := t / 3600 % 24

/-- One cleaned row of the loaded dataset (`df` after the cleaning block at
the top of `src/app.py`): the sentinel string "None" stands for a missing
`job_type`/`affiliate_code`, exactly as in the code after `fillna('None')`. -/
structure Row where
  timestamp : Nat
  continent : String
  country : String
  salesperson_id : String
  product_type : String
  request_type : String
  job_type : String
  revenue : ℚ
  purchase_flag : ℚ
  affiliate_code : String
deriving DecidableEq, Repr

/-- Insert into a list sorted by `le` (helper for `sortLe`). -/
def insertLe {α : Type} (le : α → α → Bool) (a : α) : List α → List α
  | [] => [a]
  | b :: bs => if le a b then a :: b :: bs else b :: insertLe le a bs

/-- Insertion sort by a boolean comparison (models the sorted group keys
produced by pandas `groupby`). -/
def sortLe {α : Type} (le : α → α → Bool) : List α → List α
  | [] => []
  | x :: xs => insertLe le x (sortLe le xs)

/-! ### Filter Engine (`update_dashboard`, the `# Apply filters` block) -/

/-- `if continent: filtered_df = filtered_df[filtered_df['continent'] == continent]`. -/
def filterContinent (c : Option String) (rows : List Row) : List Row :=
  match c with
  | none => rows
  | some v => rows.filter (fun r => r.continent == v)

/-- `if countries: filtered_df = filtered_df[filtered_df['country'].isin(countries)]`
(`None` and `[]` are both falsy in Python, hence one empty-list case). -/
def filterCountries (cs : List String) (rows : List Row) : List Row :=
  if cs.isEmpty then rows else rows.filter (fun r => cs.contains r.country)

/-- `if products: filtered_df = filtered_df[filtered_df['product_type'].isin(products)]`. -/
def filterProducts (ps : List String) (rows : List Row) : List Row :=
  if ps.isEmpty then rows else rows.filter (fun r => ps.contains r.product_type)

/-- A raw date-picker value: absent (`None`, falsy), a parseable date, or a
value on which `pd.to_datetime` raises. -/
inductive DateInput where
  | null
  | valid (d : Nat)
  | invalid
deriving DecidableEq, Repr

/-- Outcome of the date-filter block (lines 353–369 of `src/app.py`):
either the `except` branch fired (`parseError`, the "Invalid Date Range"
return), or the block completed, echoing possibly-parsed bounds and the
(possibly date-filtered) rows. -/
inductive DateStepResult where
  | parseError
  | ok (sEcho eEcho : DateInput) (rows : List Row)
deriving DecidableEq, Repr

/-- `if start_date and end_date: try: ... except: ...` — the whole block is
skipped when either bound is falsy; a parse failure of either bound raises;
otherwise rows are kept when `start ≤ date(timestamp) ≤ end`. -/
def dateStep (s e : DateInput) (rows : List Row) : DateStepResult :=
  match s, e with
  | .null, _ => .ok s e rows
  | _, .null => .ok s e rows
  | .invalid, _ => .parseError
  | _, .invalid => .parseError
  | .valid a, .valid b =>
      .ok (.valid a) (.valid b)
        (rows.filter (fun r => a ≤ dateOf r.timestamp && dateOf r.timestamp ≤ b))

/-! ### Static targets (`TARGETS` dict) -/

def TARGETS_revenue : ℚ := 500000
def TARGETS_conversion_rate : ℚ := 20
def TARGETS_demo_to_purchase : ℚ := 30
def TARGETS_jobs_placed : ℚ := 50
def TARGETS_ai_assist_requests : ℚ := 100
def TARGETS_promo_requests : ℚ := 50

/-! ### Aggregation Engine: KPIs (`# KPIs` block, lines 382–391) -/

/-- The ten scalar aggregates computed in the `# KPIs` block. -/
structure Kpis where
  total_revenue : ℚ
  total_interactions : Nat
  purchases : ℚ
  conversion_rate : ℚ
  demo_count : Nat
  demo_purchases : Nat
  demo_rate : ℚ
  jobs_placed : Nat
  ai_assist_requests : Nat
  promo_requests : Nat
deriving DecidableEq, Repr

/-- Direct translation of lines 382–391 of `src/app.py`. -/
def computeKpis (rows : List Row) : Kpis :=
  let total_interactions := rows.length
  let purchases := (rows.map Row.purchase_flag).sum
  let demo_count := (rows.filter (fun r => r.request_type == "demo")).length
  let demo_purchases :=
    (rows.filter (fun r => r.request_type == "demo" && r.purchase_flag == 1)).length
  { total_revenue := (rows.map Row.revenue).sum
    total_interactions := total_interactions
    purchases := purchases
    conversion_rate :=
      if 0 < total_interactions then purchases / total_interactions * 100 else 0
    demo_count := demo_count
    demo_purchases := demo_purchases
    demo_rate :=
      if 0 < demo_count then (demo_purchases : ℚ) / demo_count * 100 else 0
    jobs_placed := (rows.filter (fun r => r.job_type != "None")).length
    ai_assist_requests := (rows.filter (fun r => r.request_type == "ai_assist")).length
    promo_requests := (rows.filter (fun r => r.request_type == "promo")).length }

/-- `create_metric_card` status class:
`'success' if value >= target * 0.9 else 'warning' if value >= target * 0.7 else 'danger'`. -/
def cardStatus (value target : ℚ) : String :=
  if target * (9 / 10) ≤ value then "success"
  else if target * (7 / 10) ≤ value then "warning"
  else "danger"

/-- One KPI card (title, numeric value, target, status class); the purely
cosmetic text formatting of `create_metric_card` is not modelled. -/
structure KpiCard where
  title : String
  value : ℚ
  target : ℚ
  status : String
deriving DecidableEq, Repr

/-- The six KPI cards built in the `# KPI Cards` block. -/
def kpiCardsOf (k : Kpis) : List KpiCard :=
  [ ⟨"Revenue", k.total_revenue, TARGETS_revenue,
      cardStatus k.total_revenue TARGETS_revenue⟩,
    ⟨"Conversion Rate", k.conversion_rate, TARGETS_conversion_rate,
      cardStatus k.conversion_rate TARGETS_conversion_rate⟩,
    ⟨"Demo-to-Purchase", k.demo_rate, TARGETS_demo_to_purchase,
      cardStatus k.demo_rate TARGETS_demo_to_purchase⟩,
    ⟨"Jobs Placed", (k.jobs_placed : ℚ), TARGETS_jobs_placed,
      cardStatus (k.jobs_placed : ℚ) TARGETS_jobs_placed⟩,
    ⟨"AI Assist Requests", (k.ai_assist_requests : ℚ), TARGETS_ai_assist_requests,
      cardStatus (k.ai_assist_requests : ℚ) TARGETS_ai_assist_requests⟩,
    ⟨"Promo Requests", (k.promo_requests : ℚ), TARGETS_promo_requests,
      cardStatus (k.promo_requests : ℚ) TARGETS_promo_requests⟩ ]

/-! ### Summary Statistics Engine (live path, lines 427–460) -/

/-- The sorted distinct calendar dates of the rows: the row index produced by
`groupby(['date', 'request_type']).size().unstack(fill_value=0)`. -/
def datesAxis (rows : List Row) : List Nat :=
  sortLe Nat.ble ((rows.map (fun r => dateOf r.timestamp)).dedup)

/-- The daily count series of rows satisfying `p`, on the date axis of the
whole table.  This uniformly models the unstacked per-request-type columns
(with `fill_value=0` and the `stats_data.get(col, 0)` default for an absent
request type) and the left-merged `job_placements` column (`fillna(0)`). -/
def dailyCounts (rows : List Row) (p : Row → Bool) : List ℚ :=
  (datesAxis rows).map
    (fun d => ((rows.filter (fun r => dateOf r.timestamp == d && p r)).length : ℚ))

/-- pandas `Series.mean`: sum divided by length. -/
def meanQ (xs : List ℚ) : ℚ := xs.sum / xs.length

/-- pandas `Series.median`: middle element of the sorted series, or the
average of the two middle elements for an even length. -/
def medianQ (xs : List ℚ) : ℚ :=
  let s := sortLe (fun a b => decide (a ≤ b)) xs
  let n := s.length
  if n % 2 = 1 then s.getD (n / 2) 0
  else (s.getD (n / 2 - 1) 0 + s.getD (n / 2) 0) / 2

/-- The square of pandas `Series.std()` (sample standard deviation,
`ddof=1`): `none` models the NaN returned for fewer than two data points. -/
def sampleVar (xs : List ℚ) : Option ℚ :=
  if xs.length < 2 then none
  else some (((xs.map (fun x => (x - meanQ xs) ^ 2)).sum) / ((xs.length : ℚ) - 1))

/-- One row of the summary-statistics table: metric label, mean, median and
the squared standard deviation (see `sampleVar`). -/
structure StatRow where
  metric : String
  mean : ℚ
  median : ℚ
  stdSq : Option ℚ
deriving DecidableEq, Repr

/-- Builds one row of the `summary_stats` DataFrame from a daily series. -/
def statRowOf (name : String) (xs : List ℚ) : StatRow :=
  ⟨name, meanQ xs, medianQ xs, sampleVar xs⟩

/-- The `summary_stats` DataFrame of the live path (lines 436–456), prior to
the `.round(2)` display step: four metric rows over the daily count series of
demo / ai_assist / promo requests and of job placements (`job_type != 'None'`). -/
def summaryStatsRaw (rows : List Row) : List StatRow :=
  [ statRowOf "Demo Requests" (dailyCounts rows (fun r => r.request_type == "demo")),
    statRowOf "AI Assist Requests" (dailyCounts rows (fun r => r.request_type == "ai_assist")),
    statRowOf "Promo Events" (dailyCounts rows (fun r => r.request_type == "promo")),
    statRowOf "Job Placements" (dailyCounts rows (fun r => r.job_type != "None")) ]

/-- numpy/pandas rounding of a rational to the nearest integer, ties to even. -/
def roundHalfEvenZ (q : ℚ) : ℤ :=
  let f := ⌊q⌋
  let r := q - f
  if r < 1 / 2 then f
  else if 1 / 2 < r then f + 1
  else if f % 2 = 0 then f else f + 1

/-- `round(2)`: round to two decimal places. -/
def roundQ2 (q : ℚ) : ℚ := (roundHalfEvenZ (q * 100) : ℚ) / 100

/-- Lines 458–460: the displayed table rounds the Mean and Median columns to
two decimals.  (The source also rounds the Standard Deviation column; that
display rounding acts on `sqrt stdSq`, which is not rational, and plays no
role in any verified claim, so it is not modelled on the `stdSq` field.) -/
def summaryStatsDisplayed (rows : List Row) : List StatRow :=
  (summaryStatsRaw rows).map
    (fun s => { s with mean := roundQ2 s.mean, median := roundQ2 s.median })

/-! ### Retained row set and the download path (`download_report`, lines 256–300) -/

/-- A record of the retained filtered row set (`filtered_df.to_dict('records')`):
the schema columns plus the two derived columns `date` (added at line 428)
and `hour` (added at line 556). -/
structure StoredRow where
  row : Row
  date : Nat
  hour : Nat
deriving DecidableEq, Repr

/-- The enrichment the cycle applies before storing:
`filtered_df['date'] = ...dt.date` and `filtered_df['hour'] = ...dt.hour`. -/
def enrich (r : Row) : StoredRow :=
  ⟨r, dateOf r.timestamp, hourOf r.timestamp⟩

/-- Date axis as recomputed by `download_report` (it re-derives `date` from
the `timestamp` column of the stored records, line 267). -/
def datesAxisDL (srs : List StoredRow) : List Nat :=
  sortLe Nat.ble ((srs.map (fun s => dateOf s.row.timestamp)).dedup)

/-- Daily count series on the download path (same unstack/merge/`fillna(0)`
construction as the live path, lines 268–273). -/
def dailyCountsDL (srs : List StoredRow) (p : StoredRow → Bool) : List ℚ :=
  (datesAxisDL srs).map
    (fun d => ((srs.filter (fun s => dateOf s.row.timestamp == d && p s)).length : ℚ))

/-- The exported `summary_stats` DataFrame (lines 275–295).  `none` models
`return None` on an empty/absent retained store (`if not filtered_data`);
the export applies no rounding. -/
def downloadSummary (srs : List StoredRow) : Option (List StatRow) :=
  if srs.isEmpty then none
  else some
    [ statRowOf "Demo Requests" (dailyCountsDL srs (fun s => s.row.request_type == "demo")),
      statRowOf "AI Assist Requests" (dailyCountsDL srs (fun s => s.row.request_type == "ai_assist")),
      statRowOf "Promo Events" (dailyCountsDL srs (fun s => s.row.request_type == "promo")),
      statRowOf "Job Placements" (dailyCountsDL srs (fun s => s.row.job_type != "None")) ]

/-! ### Hourly trend (`# Trend Graph` block, lines 556–578) -/

/-- The trend-view selector: `'average'` or a calendar date of the dataset. -/
inductive TrendView where
  | average
  | onDate (d : Nat)
deriving DecidableEq, Repr

/-- The four parallel hourly series of the trend chart, each indexed by the
hours 0–23 (the `all_hours` merge zero-fills missing hours, and the
`trend_data.get(col, 0)` defaults zero-fill an absent request type). -/
structure TrendData where
  promo : List Nat
  demo : List Nat
  ai_assist : List Nat
  job_placements : List Nat
deriving DecidableEq, Repr

/-- Counts of rows satisfying `p`, per hour of day 0–23. -/
def hourlyCounts (rows : List Row) (p : Row → Bool) : List Nat :=
  (List.range 24).map
    (fun h => (rows.filter (fun r => hourOf r.timestamp == h && p r)).length)

/-- The rows the trend chart is computed from: the whole filtered table for
the `'average'` view, or its restriction to the selected date otherwise. -/
def trendBase (tv : TrendView) (rows : List Row) : List Row :=
  match tv with
  | .average => rows
  | .onDate d => rows.filter (fun r => dateOf r.timestamp == d)

/-- The trend chart data (lines 556–578). -/
def trendDataOf (tv : TrendView) (rows : List Row) : TrendData :=
  let b := trendBase tv rows
  { promo := hourlyCounts b (fun r => r.request_type == "promo")
    demo := hourlyCounts b (fun r => r.request_type == "demo")
    ai_assist := hourlyCounts b (fun r => r.request_type == "ai_assist")
    job_placements := hourlyCounts b (fun r => r.job_type != "None") }

/-- Title of the trend figure. -/
def trendTitle (tv : TrendView) : String :=
  match tv with
  | .average => "Average Hourly Trends: Promo, Demo, AI Assist, and Job Placements"
  | .onDate d =>
      "Hourly Trends on " ++ toString d ++ ": Promo, Demo, AI Assist, and Job Placements"

/-! ### The other chart datasets -/

/-- A figure: either an error placeholder (a `go.Figure()` carrying only a
title) or a rendered plot with its title and data. -/
inductive Chart (α : Type) where
  | placeholder (title : String)
  | plot (title : String) (data : α)
deriving DecidableEq, Repr

/-- `groupby('salesperson_id')['revenue ($)'].sum()`, each row annotated with
the static revenue target column. -/
def revenueBySalesperson (rows : List Row) : List (String × ℚ × ℚ) :=
  ((rows.map Row.salesperson_id).dedup).map
    (fun k =>
      (k, ((rows.filter (fun r => r.salesperson_id == k)).map Row.revenue).sum,
        TARGETS_revenue))

/-- `filtered_df['request_type'].value_counts()`. -/
def requestDist (rows : List Row) : List (String × Nat) :=
  ((rows.map Row.request_type).dedup).map
    (fun k => (k, (rows.filter (fun r => r.request_type == k)).length))

/-- `filtered_df[filtered_df['job_type'] != 'None']['job_type'].value_counts()`. -/
def jobTypeCounts (rows : List Row) : List (String × Nat) :=
  let jr := rows.filter (fun r => r.job_type != "None")
  ((jr.map Row.job_type).dedup).map
    (fun k => (k, (jr.filter (fun r => r.job_type == k)).length))

/-- `groupby('affiliate_code')['revenue ($)'].sum()`, with the `'None'` group
removed afterwards (line 529). -/
def affiliateRevenue (rows : List Row) : List (String × ℚ) :=
  (((rows.map Row.affiliate_code).dedup).map
    (fun k => (k, ((rows.filter (fun r => r.affiliate_code == k)).map Row.revenue).sum))).filter
    (fun kv => kv.fst != "None")

/-- `groupby('country')['revenue ($)'].sum()`. -/
def revenueByCountry (rows : List Row) : List (String × ℚ) :=
  ((rows.map Row.country).dedup).map
    (fun k => (k, ((rows.filter (fun r => r.country == k)).map Row.revenue).sum))

/-- Choropleth data plus the map scope hint
(`scope=continent.lower() if continent else 'world'`). -/
structure MapData where
  data : List (String × ℚ)
  scope : String
deriving DecidableEq, Repr

/-- The map-scope hint. -/
def mapScope (continent : Option String) : String :=
  match continent with
  | some c => c.toLower
  | none => "world"

/-! ### Interaction Controller (`update_dashboard`, lines 303–639) -/

/-- Which input fired the callback: the reset button or any other control
(`ctx.triggered_id == 'reset-button'`). -/
inductive Trigger where
  | reset
  | filterChange
deriving DecidableEq, Repr

/-- The callback arguments
`(continent, countries, products, start_date, end_date, reset_clicks, trend_view)`
together with the triggering control. -/
structure CallbackInput where
  continent : Option String
  countries : List String
  products : List String
  start_date : DateInput
  end_date : DateInput
  trigger : Trigger
  trend_view : TrendView
deriving DecidableEq, Repr

/-- The 15-tuple returned by `update_dashboard`, as one record.  The five
`...Echo` fields are the values written back into the filter controls. -/
structure CycleOutput where
  kpiCards : List KpiCard
  revenueBar : Chart (List (String × ℚ × ℚ))
  requestPie : Chart (List (String × Nat))
  jobTypeBar : Chart (List (String × Nat))
  affiliateBar : Chart (List (String × ℚ))
  revenueMap : Chart MapData
  trendGraph : Chart TrendData
  retained : List StoredRow
  errorMsg : String
  continentEcho : Option String
  countriesEcho : List String
  productsEcho : List String
  startEcho : DateInput
  endEcho : DateInput
  summaryTable : List StatRow
deriving DecidableEq, Repr

/-- The common shape of the two early-return bundles (lines 363–369 and
372–379): six placeholder figures with the given title, empty cards, empty
retained set, empty summary table, all control echoes reset to their
defaults and the date echoes to the dataset bounds. -/
def errorBundle (title msg : String) (md xd : Nat) : CycleOutput :=
  { kpiCards := []
    revenueBar := Chart.placeholder title
    requestPie := Chart.placeholder title
    jobTypeBar := Chart.placeholder title
    affiliateBar := Chart.placeholder title
    revenueMap := Chart.placeholder title
    trendGraph := Chart.placeholder title
    retained := []
    errorMsg := msg
    continentEcho := none
    countriesEcho := []
    productsEcho := []
    startEcho := DateInput.valid md
    endEcho := DateInput.valid xd
    summaryTable := [] }

/-- `df['timestamp'].min().date()` (with the fallback
`datetime(2024, 1, 1).date()`, day number 19723, for an empty table). -/
def minDateOf (rows : List Row) : Nat :=
  match rows with
  | [] => 19723
  | r :: rs => dateOf ((rs.map Row.timestamp).foldl min r.timestamp)

/-- `df['timestamp'].max().date()` (fallback `datetime(2025, 5, 31).date()`,
day number 20239, for an empty table). -/
def maxDateOf (rows : List Row) : Nat :=
  match rows with
  | [] => 20239
  | r :: rs => dateOf ((rs.map Row.timestamp).foldl max r.timestamp)

/-- The `# Handle reset` block (lines 337–343): on a reset trigger every
filter variable is overwritten with its default before any filtering runs. -/
def effectiveInput (base : List Row) (inp : CallbackInput) : CallbackInput :=
  match inp.trigger with
  | .reset =>
      { continent := none, countries := [], products := [],
        start_date := DateInput.valid (minDateOf base),
        end_date := DateInput.valid (maxDateOf base),
        trigger := Trigger.reset, trend_view := TrendView.average }
  | .filterChange => inp

/-- The first three filters, in source order (continent, country, product),
applied to a fresh copy of the base table (`filtered_df = df.copy()`). -/
def preDateRows (base : List Row) (e : CallbackInput) : List Row :=
  filterProducts e.products (filterCountries e.countries (filterContinent e.continent base))

/-- The success return (lines 623–629): all computed outputs plus the echo of
the effective control values. -/
def successOutput (rows : List Row) (continent : Option String)
    (countries products : List String) (tv : TrendView) (sE eE : DateInput) : CycleOutput :=
  { kpiCards := kpiCardsOf (computeKpis rows)
    revenueBar := Chart.plot "Revenue by Salesperson" (revenueBySalesperson rows)
    requestPie := Chart.plot "Request Type Distribution" (requestDist rows)
    jobTypeBar := Chart.plot "Jobs by Type" (jobTypeCounts rows)
    affiliateBar := Chart.plot "Revenue by Marketing Channel (Affiliate Code)" (affiliateRevenue rows)
    revenueMap := Chart.plot "Revenue by Country" ⟨revenueByCountry rows, mapScope continent⟩
    trendGraph := Chart.plot (trendTitle tv) (trendDataOf tv rows)
    retained := rows.map enrich
    errorMsg := ""
    continentEcho := continent
    countriesEcho := countries
    productsEcho := products
    startEcho := sE
    endEcho := eE
    summaryTable := summaryStatsDisplayed rows }

/-- One full recomputation cycle of the main callback `update_dashboard`:
reset handling, the four filters in source order, the `except` branch of the
date block ("Invalid Date Range"), the `filtered_df.empty` check
("No Data Available"), and the success bundle. -/
def update_dashboard (base : List Row) (inp : CallbackInput) : CycleOutput :=
  let md := minDateOf base
  let xd := maxDateOf base
  let e := effectiveInput base inp
  match dateStep e.start_date e.end_date (preDateRows base e) with
  | .parseError =>
      errorBundle "Invalid Date Range" "Invalid date range selected" md xd
  | .ok sE eE f4 =>
      if f4.isEmpty then
        errorBundle "No Data Available" "No data available for selected filters" md xd
      else successOutput f4 e.continent e.countries e.products e.trend_view sE eE

/-- The callback input of the initial page load: the layout's initial control
values (no continent, no countries, no products, full date range, `'average'`
trend view), not fired by the reset button. -/
def defaultInput (base : List Row) : CallbackInput :=
  { continent := none, countries := [], products := [],
    start_date := DateInput.valid (minDateOf base),
    end_date := DateInput.valid (maxDateOf base),
    trigger := Trigger.filterChange, trend_view := TrendView.average }

/-- The cross-cycle shared state: the immutable base table and the
`dcc.Store('filtered-data')` holding the retained row set. -/
structure AppState where
  base : List Row
  store : List StoredRow
deriving DecidableEq, Repr

/-- One cycle acting on the shared state: the callback reads `df`, writes
only the store output; `df` itself is never reassigned (the cycle works on
`df.copy()`). -/
def runCycle (s : AppState) (inp : CallbackInput) : AppState × CycleOutput :=
  let out := update_dashboard s.base inp
  ({ base := s.base, store := out.retained }, out)

/-! ### A parsed (valid) filter state, for the algebraic filter claims -/

/-- A validated filter state: both date bounds already parsed.  This is the
state under which the `# Apply filters` block runs to completion. -/
structure FilterParams where
  continent : Option String
  countries : List String
  products : List String
  dstart : Nat
  dend : Nat
deriving DecidableEq, Repr

/-- The date filter of line 357–360 for parsed bounds. -/
def filterDateRange (s e : Nat) (rows : List Row) : List Row :=
  rows.filter (fun r => s ≤ dateOf r.timestamp && dateOf r.timestamp ≤ e)

/-- The four filters in the source order continent → country → product → date. -/
def applyFilterParams (base : List Row) (fp : FilterParams) : List Row :=
  filterDateRange fp.dstart fp.dend
    (filterProducts fp.products (filterCountries fp.countries (filterContinent fp.continent base)))

/-- A name for each of the four filters, to quantify over application orders. -/
inductive FilterKind where
  | cont
  | ctry
  | prod
  | date
deriving DecidableEq, Repr

/-- Apply one named filter. -/
def applyKind (fp : FilterParams) (k : FilterKind) (rows : List Row) : List Row :=
  match k with
  | .cont => filterContinent fp.continent rows
  | .ctry => filterCountries fp.countries rows
  | .prod => filterProducts fp.products rows
  | .date => filterDateRange fp.dstart fp.dend rows

/-- Apply a sequence of named filters, left to right. -/
def applySeq (fp : FilterParams) (ks : List FilterKind) (rows : List Row) : List Row :=
  ks.foldl (fun acc k => applyKind fp k acc) rows

/-! ### Spec-level filter predicates (observers used only in statements/proofs) -/

/-- The continent filter as a single predicate (`true` when inactive). -/
def contPred (c : Option String) (r : Row) : Bool :=
  match c with
  | none => true
  | some v => r.continent == v

/-- The country filter as a single predicate. -/
def ctryPred (cs : List String) (r : Row) : Bool :=
  cs.isEmpty || cs.contains r.country

/-- The product filter as a single predicate. -/
def prodPred (ps : List String) (r : Row) : Bool :=
  ps.isEmpty || ps.contains r.product_type

/-- The date filter as a single predicate. -/
def datePred (s e : Nat) (r : Row) : Bool :=
  decide (s ≤ dateOf r.timestamp) && decide (dateOf r.timestamp ≤ e)

/-- The predicate of one named filter. -/
def kindPred (fp : FilterParams) (k : FilterKind) (r : Row) : Bool :=
  match k with
  | .cont => contPred fp.continent r
  | .ctry => ctryPred fp.countries r
  | .prod => prodPred fp.products r
  | .date => datePred fp.dstart fp.dend r

/-! ### Concrete fixture data (the single-row table of spec §8) -/

/-- The one-row base table of the spec's concrete scenarios: Europe/Germany,
`request_type = demo`, revenue 150, purchase, timestamp 2024-03-01 10:00:00
(day number 19783, hour 10; 1709287200 seconds). -/
def sampleRow : Row :=
  { timestamp := 1709287200, continent := "Europe", country := "Germany",
    salesperson_id := "SP001", product_type := "AI-Powered CRM",
    request_type := "demo", job_type := "None", revenue := 150,
    purchase_flag := 1, affiliate_code := "None" }

def baseOne : List Row := [sampleRow]

/-- Like `sampleRow` but without a purchase. -/
def rowNoPurchase : Row := { sampleRow with purchase_flag := 0 }

/-- Date filter with start 2025-01-01 (day 20089) after end 2024-01-01
(day 19723): both bounds parse, start > end. -/
def inpSwapped : CallbackInput :=
  { continent := none, countries := [], products := [],
    start_date := DateInput.valid 20089, end_date := DateInput.valid 19723,
    trigger := Trigger.filterChange, trend_view := TrendView.average }

/-- A date-range input whose start fails to parse. -/
def inpUnparsable : CallbackInput :=
  { continent := none, countries := [], products := [],
    start_date := DateInput.invalid, end_date := DateInput.valid 19723,
    trigger := Trigger.filterChange, trend_view := TrendView.average }

/-- Filtering the Europe-only table by continent "Asia". -/
def inpAsia : CallbackInput :=
  { continent := some "Asia", countries := [], products := [],
    start_date := DateInput.null, end_date := DateInput.null,
    trigger := Trigger.filterChange, trend_view := TrendView.average }

/-- An arbitrary dirty filter state fired by the reset button. -/
def inpReset : CallbackInput :=
  { continent := some "Asia", countries := ["Japan"], products := ["Virtual Assistant Suite"],
    start_date := DateInput.valid 1, end_date := DateInput.valid 2,
    trigger := Trigger.reset, trend_view := TrendView.onDate 19783 }

/-- A concrete valid filter state for the algebraic witnesses. -/
def fpSample : FilterParams :=
  { continent := some "Europe", countries := ["Germany"], products := [],
    dstart := 19000, dend := 20300 }

/-! ## Theorems -/

theorem filterContinent_eq_filter (c : Option String) (rows : List Row) :
    filterContinent c rows = rows.filter (contPred c) := by
  cases c with
  | none =>
      have h : rows.filter (contPred none) = rows.filter (fun _ => true) :=
        List.filter_congr (fun r _ => rfl)
      simp [filterContinent, h]
  | some v => exact List.filter_congr (fun r _ => rfl)

theorem filterCountries_eq_filter (cs : List String) (rows : List Row) :
    filterCountries cs rows = rows.filter (ctryPred cs) := by
  by_cases h : cs.isEmpty
  · have h2 : rows.filter (ctryPred cs) = rows.filter (fun _ => true) :=
      List.filter_congr (fun r _ => by simp [ctryPred, h])
    simp [filterCountries, h, h2]
  · simp only [filterCountries, if_neg h]
    exact List.filter_congr (fun r _ => by simp [ctryPred, eq_false_of_ne_true h])

theorem filterProducts_eq_filter (ps : List String) (rows : List Row) :
    filterProducts ps rows = rows.filter (prodPred ps) := by
  by_cases h : ps.isEmpty
  · have h2 : rows.filter (prodPred ps) = rows.filter (fun _ => true) :=
      List.filter_congr (fun r _ => by simp [prodPred, h])
    simp [filterProducts, h, h2]
  · simp only [filterProducts, if_neg h]
    exact List.filter_congr (fun r _ => by simp [prodPred, eq_false_of_ne_true h])

theorem filterDateRange_eq_filter (s e : Nat) (rows : List Row) :
    filterDateRange s e rows = rows.filter (datePred s e) := rfl

theorem applyKind_eq_filter (fp : FilterParams) (k : FilterKind) (rows : List Row) :
    applyKind fp k rows = rows.filter (kindPred fp k) := by
  cases k with
  | cont =>
      rw [show applyKind fp FilterKind.cont rows = filterContinent fp.continent rows from rfl,
        filterContinent_eq_filter]
      exact List.filter_congr (fun r _ => rfl)
  | ctry =>
      rw [show applyKind fp FilterKind.ctry rows = filterCountries fp.countries rows from rfl,
        filterCountries_eq_filter]
      exact List.filter_congr (fun r _ => rfl)
  | prod =>
      rw [show applyKind fp FilterKind.prod rows = filterProducts fp.products rows from rfl,
        filterProducts_eq_filter]
      exact List.filter_congr (fun r _ => rfl)
  | date =>
      rw [show applyKind fp FilterKind.date rows = filterDateRange fp.dstart fp.dend rows from rfl,
        filterDateRange_eq_filter]
      exact List.filter_congr (fun r _ => rfl)

theorem applySeq_eq_filter (fp : FilterParams) (ks : List FilterKind) (rows : List Row) :
    applySeq fp ks rows = rows.filter (fun r => ks.all (fun k => kindPred fp k r)) := by
  induction ks generalizing rows with
  | nil => simp [applySeq]
  | cons k ks ih =>
      have h1 : applySeq fp (k :: ks) rows = applySeq fp ks (applyKind fp k rows) := rfl
      rw [h1, ih, applyKind_eq_filter, List.filter_filter]
      exact List.filter_congr (fun r _ => by simp [List.all_cons, Bool.and_comm])

theorem perm_all_eq {l₁ l₂ : List FilterKind} (f : FilterKind → Bool) (h : l₁.Perm l₂) :
    l₁.all f = l₂.all f := by
  induction h with
  | nil => rfl
  | cons x _ ih => simp [List.all_cons, ih]
  | swap x y l =>
      simp only [List.all_cons]
      rw [← Bool.and_assoc, Bool.and_comm (f y) (f x), Bool.and_assoc]
  | trans _ _ ih1 ih2 => rw [ih1, ih2]

theorem applyFilterParams_eq_filter (base : List Row) (fp : FilterParams) :
    applyFilterParams base fp =
      base.filter (fun r => [FilterKind.cont, FilterKind.ctry, FilterKind.prod,
        FilterKind.date].all (fun k => kindPred fp k r)) := by
  have h : applyFilterParams base fp =
      applySeq fp [FilterKind.cont, FilterKind.ctry, FilterKind.prod, FilterKind.date] base := rfl
  rw [h, applySeq_eq_filter]

/-- C3: for every base table and valid filter state, the filtered table is a
subset of the base table's rows, and applying the same filter state again to
the filtered table returns the identical row set. -/
theorem filter_subset_and_idempotent (base : List Row) (fp : FilterParams) :
    (∀ r ∈ applyFilterParams base fp, r ∈ base) ∧
    applyFilterParams (applyFilterParams base fp) fp = applyFilterParams base fp := by
  constructor
  · intro r hr
    rw [applyFilterParams_eq_filter] at hr
    exact List.mem_of_mem_filter hr
  · have key := fun l => applyFilterParams_eq_filter l fp
    rw [key, key, List.filter_filter]
    exact List.filter_congr (fun r _ => Bool.and_self _)

/-- C4: the continent, country, product and date filters compose by
conjunction: applying them in any order yields the same final row set as
the source order continent → country → product → date. -/
theorem filter_order_independent (base : List Row) (fp : FilterParams)
    (order : List FilterKind)
    (h : order.Perm [FilterKind.cont, FilterKind.ctry, FilterKind.prod, FilterKind.date]) :
    applySeq fp order base = applyFilterParams base fp := by
  rw [applySeq_eq_filter, applyFilterParams_eq_filter]
  exact List.filter_congr (fun r _ => perm_all_eq (fun k => kindPred fp k r) h)

/-- Witness for C4: the fully reversed order date → product → country →
continent on the concrete table and filter state. -/
theorem filter_order_independent_witness :
    ([FilterKind.date, FilterKind.prod, FilterKind.ctry, FilterKind.cont].Perm
      [FilterKind.cont, FilterKind.ctry, FilterKind.prod, FilterKind.date]) ∧
    applySeq fpSample [FilterKind.date, FilterKind.prod, FilterKind.ctry, FilterKind.cont] baseOne =
      applyFilterParams baseOne fpSample :=
  ⟨by decide, filter_order_independent baseOne fpSample _ (by decide)⟩

theorem flags_sum_bounds (rows : List Row)
    (h : ∀ r ∈ rows, r.purchase_flag = 0 ∨ r.purchase_flag = 1) :
    0 ≤ (rows.map Row.purchase_flag).sum ∧
    (rows.map Row.purchase_flag).sum ≤ (rows.length : ℚ) := by
  induction rows with
  | nil => simp
  | cons r rs ih =>
      have hr := h r (List.mem_cons_self r rs)
      have hrs := ih (fun x hx => h x (List.mem_cons_of_mem r hx))
      simp only [List.map_cons, List.sum_cons, List.length_cons]
      push_cast
      rcases hr with h0 | h1
      · constructor <;> [linarith [hrs.1]; linarith [hrs.2]]
      · constructor <;> [linarith [hrs.1]; linarith [hrs.2]]

theorem demo_purchases_le_demo_count (rows : List Row) :
    (rows.filter (fun r => r.request_type == "demo" && r.purchase_flag == 1)).length ≤
    (rows.filter (fun r => r.request_type == "demo")).length := by
  rw [← List.countP_eq_length_filter, ← List.countP_eq_length_filter]
  exact List.countP_mono_left (fun x _ hx => by
    simp only [Bool.and_eq_true] at hx
    exact hx.1)

/-- C5 (amended): under the data-model invariant `purchase_flag ∈ {0,1}`,
both rates lie in [0,100] and a zero denominator forces the rate to 0.
(The converse of the zero case is false, see the counterexample.) -/
theorem kpi_rates_bounded (rows : List Row)
    (h : ∀ r ∈ rows, r.purchase_flag = 0 ∨ r.purchase_flag = 1) :
    0 ≤ (computeKpis rows).conversion_rate ∧ (computeKpis rows).conversion_rate ≤ 100 ∧
    0 ≤ (computeKpis rows).demo_rate ∧ (computeKpis rows).demo_rate ≤ 100 ∧
    ((computeKpis rows).total_interactions = 0 → (computeKpis rows).conversion_rate = 0) ∧
    ((computeKpis rows).demo_count = 0 → (computeKpis rows).demo_rate = 0) := by
  have hb := flags_sum_bounds rows h
  have hd := demo_purchases_le_demo_count rows
  simp only [computeKpis]
  by_cases hn : 0 < rows.length
  · have hlen : (0 : ℚ) < rows.length := by exact_mod_cast hn
    rw [if_pos hn]
    refine ⟨?_, ?_, ?_⟩
    · exact mul_nonneg (div_nonneg hb.1 (le_of_lt hlen)) (by norm_num)
    · rw [div_mul_eq_mul_div, div_le_iff₀ hlen]
      nlinarith [hb.2]
    · by_cases hdc : 0 < (rows.filter (fun r => r.request_type == "demo")).length
      · have hdlen : (0 : ℚ) < (rows.filter (fun r => r.request_type == "demo")).length := by
          exact_mod_cast hdc
        rw [if_pos hdc]
        refine ⟨?_, ?_, ?_, ?_⟩
        · exact mul_nonneg (div_nonneg (by positivity) (le_of_lt hdlen)) (by norm_num)
        · rw [div_mul_eq_mul_div, div_le_iff₀ hdlen]
          have hdq : ((rows.filter
              (fun r => r.request_type == "demo" && r.purchase_flag == 1)).length : ℚ) ≤
              ((rows.filter (fun r => r.request_type == "demo")).length : ℚ) := by
            exact_mod_cast hd
          nlinarith
        · intro habs
          omega
        · intro habs
          omega
      · rw [if_neg hdc]
        refine ⟨le_refl 0, by norm_num, ?_, ?_⟩
        · intro habs
          omega
        · intro _
          rfl
  · rw [if_neg hn]
    by_cases hdc : 0 < (rows.filter (fun r => r.request_type == "demo")).length
    · have hdlen : (0 : ℚ) < (rows.filter (fun r => r.request_type == "demo")).length := by
        exact_mod_cast hdc
      rw [if_pos hdc]
      have hdq : ((rows.filter
          (fun r => r.request_type == "demo" && r.purchase_flag == 1)).length : ℚ) ≤
          ((rows.filter (fun r => r.request_type == "demo")).length : ℚ) := by
        exact_mod_cast hd
      refine ⟨le_refl 0, by norm_num, ?_, ?_, fun _ => rfl, fun habs => by omega⟩
      · exact mul_nonneg (div_nonneg (by positivity) (le_of_lt hdlen)) (by norm_num)
      · rw [div_mul_eq_mul_div, div_le_iff₀ hdlen]
        nlinarith
    · rw [if_neg hdc]
      exact ⟨le_refl 0, by norm_num, le_refl 0, by norm_num, fun _ => rfl, fun _ => rfl⟩

/-- Witness for C5 (amended), at the one-row table with a purchase. -/
theorem kpi_rates_bounded_witness :
    (∀ r ∈ baseOne, r.purchase_flag = 0 ∨ r.purchase_flag = 1) ∧
    (0 ≤ (computeKpis baseOne).conversion_rate ∧ (computeKpis baseOne).conversion_rate ≤ 100 ∧
     0 ≤ (computeKpis baseOne).demo_rate ∧ (computeKpis baseOne).demo_rate ≤ 100 ∧
     ((computeKpis baseOne).total_interactions = 0 → (computeKpis baseOne).conversion_rate = 0) ∧
     ((computeKpis baseOne).demo_count = 0 → (computeKpis baseOne).demo_rate = 0)) :=
  ⟨by decide, kpi_rates_bounded baseOne (by decide)⟩

/-- Counterexample for C5 as stated: a single demo row without a purchase
satisfies the invariant, yet both rates are 0 while both denominators are 1,
refuting "each rate equals 0 exactly when its denominator is 0". -/
theorem kpi_rate_zero_with_nonzero_denominator :
    (rowNoPurchase.purchase_flag = 0 ∨ rowNoPurchase.purchase_flag = 1) ∧
    (computeKpis [rowNoPurchase]).conversion_rate = 0 ∧
    (computeKpis [rowNoPurchase]).total_interactions = 1 ∧
    (computeKpis [rowNoPurchase]).demo_rate = 0 ∧
    (computeKpis [rowNoPurchase]).demo_count = 1 := by
  refine ⟨Or.inl rfl, ?_, rfl, ?_, rfl⟩ <;> norm_num [computeKpis, rowNoPurchase, sampleRow]

theorem hourOf_lt (t : Nat) : hourOf t < 24 := Nat.mod_lt _ (by norm_num)

theorem sum_range_map (f : Nat → Nat) (n : Nat) :
    ((List.range n).map f).sum = ∑ i in Finset.range n, f i := by
  induction n with
  | zero => simp
  | succ k ih =>
      rw [List.range_succ, Finset.sum_range_succ, List.map_append, List.sum_append, ih]
      simp

theorem sum_indicator_hour (t : Nat) (b : Bool) :
    (∑ h in Finset.range 24, if (hourOf t == h && b) = true then 1 else 0) =
      (if b = true then 1 else 0) := by
  cases b with
  | false => simp
  | true =>
      simp only [Bool.and_true, if_pos rfl]
      have h1 : ∀ h : Nat, (if (hourOf t == h) = true then (1 : ℕ) else 0) =
          (if hourOf t = h then 1 else 0) := by
        intro h
        simp [Nat.beq_eq_true_eq]
      simp only [h1]
      rw [Finset.sum_ite_eq]
      simp [Finset.mem_range.mpr (hourOf_lt t)]

theorem hourlyCounts_sum (rows : List Row) (p : Row → Bool) :
    (hourlyCounts rows p).sum = (rows.filter p).length := by
  have h0 : (hourlyCounts rows p).sum =
      ∑ h in Finset.range 24,
        (rows.filter (fun r => hourOf r.timestamp == h && p r)).length :=
    sum_range_map _ 24
  rw [h0]
  clear h0
  simp only [← List.countP_eq_length_filter]
  induction rows with
  | nil => simp
  | cons r rs ih =>
      simp only [List.countP_cons]
      rw [Finset.sum_add_distrib, ih, sum_indicator_hour r.timestamp (p r)]

/-- C6: for every non-empty filtered table, each of the four hourly trend
series has exactly 24 entries (hours 0–23, zero-filled) with every count
≥ 0 in *both* trend views (`'average'` and any selected date), and in the
`'average'` view each series sums to the corresponding aggregate count over
the whole filtered table. -/
theorem trend_series_shape (rows : List Row) (_hne : rows ≠ []) :
    (∀ tv : TrendView,
      (trendDataOf tv rows).promo.length = 24 ∧
      (trendDataOf tv rows).demo.length = 24 ∧
      (trendDataOf tv rows).ai_assist.length = 24 ∧
      (trendDataOf tv rows).job_placements.length = 24 ∧
      (∀ c ∈ (trendDataOf tv rows).promo, 0 ≤ c) ∧
      (∀ c ∈ (trendDataOf tv rows).demo, 0 ≤ c) ∧
      (∀ c ∈ (trendDataOf tv rows).ai_assist, 0 ≤ c) ∧
      (∀ c ∈ (trendDataOf tv rows).job_placements, 0 ≤ c)) ∧
    (trendDataOf TrendView.average rows).promo.sum = (computeKpis rows).promo_requests ∧
    (trendDataOf TrendView.average rows).demo.sum = (computeKpis rows).demo_count ∧
    (trendDataOf TrendView.average rows).ai_assist.sum = (computeKpis rows).ai_assist_requests ∧
    (trendDataOf TrendView.average rows).job_placements.sum = (computeKpis rows).jobs_placed := by
  refine ⟨?_, ?_, ?_, ?_, ?_⟩
  · intro tv
    refine ⟨?_, ?_, ?_, ?_, ?_, ?_, ?_, ?_⟩
    · simp [trendDataOf, hourlyCounts]
    · simp [trendDataOf, hourlyCounts]
    · simp [trendDataOf, hourlyCounts]
    · simp [trendDataOf, hourlyCounts]
    · exact fun c _ => Nat.zero_le c
    · exact fun c _ => Nat.zero_le c
    · exact fun c _ => Nat.zero_le c
    · exact fun c _ => Nat.zero_le c
  · rw [show (trendDataOf TrendView.average rows).promo =
        hourlyCounts rows (fun r => r.request_type == "promo") from rfl, hourlyCounts_sum]
    rfl
  · rw [show (trendDataOf TrendView.average rows).demo =
        hourlyCounts rows (fun r => r.request_type == "demo") from rfl, hourlyCounts_sum]
    rfl
  · rw [show (trendDataOf TrendView.average rows).ai_assist =
        hourlyCounts rows (fun r => r.request_type == "ai_assist") from rfl, hourlyCounts_sum]
    rfl
  · rw [show (trendDataOf TrendView.average rows).job_placements =
        hourlyCounts rows (fun r => r.job_type != "None") from rfl, hourlyCounts_sum]
    rfl

/-- Witness for C6 at the concrete one-row table, exercising the
selected-date view for the shape and the average view for the sum. -/
theorem trend_series_shape_witness :
    baseOne ≠ [] ∧
    (trendDataOf (TrendView.onDate 19783) baseOne).demo.length = 24 ∧
    (∀ c ∈ (trendDataOf (TrendView.onDate 19783) baseOne).demo, 0 ≤ c) ∧
    (trendDataOf TrendView.average baseOne).demo.sum = (computeKpis baseOne).demo_count :=
  ⟨by decide,
   (((trend_series_shape baseOne (by decide)).1 (TrendView.onDate 19783)).2.1),
   (((trend_series_shape baseOne (by decide)).1 (TrendView.onDate 19783)).2.2.2.2.2.1),
   ((trend_series_shape baseOne (by decide)).2.2.1)⟩

theorem insertLe_perm {α : Type} (le : α → α → Bool) (a : α) (l : List α) :
    (insertLe le a l).Perm (a :: l) := by
  induction l with
  | nil => exact List.Perm.refl _
  | cons b bs ih =>
      by_cases h : le a b
      · simp [insertLe, h]
      · simp only [insertLe, if_neg h]
        exact (ih.cons b).trans (List.Perm.swap a b bs)

theorem sortLe_perm {α : Type} (le : α → α → Bool) (l : List α) :
    (sortLe le l).Perm l := by
  induction l with
  | nil => exact List.Perm.refl _
  | cons x xs ih => exact (insertLe_perm le x (sortLe le xs)).trans (ih.cons x)

theorem getD_zero_of_all_zero (l : List ℚ) (i : Nat) (h : ∀ x ∈ l, x = 0) :
    l.getD i 0 = 0 := by
  rcases hl : l[i]? with _ | x
  · simp [List.getD_eq_getElem?_getD, hl]
  · have hx : x ∈ l := by
      rcases List.getElem?_eq_some.mp hl with ⟨hlt, he⟩
      exact he ▸ List.getElem_mem hlt
    simp [List.getD_eq_getElem?_getD, hl, h x hx]

theorem meanQ_zero (xs : List ℚ) (h : ∀ x ∈ xs, x = 0) : meanQ xs = 0 := by
  simp only [meanQ]
  rw [List.sum_eq_zero h, zero_div]

theorem medianQ_zero (xs : List ℚ) (h : ∀ x ∈ xs, x = 0) : medianQ xs = 0 := by
  have hs : ∀ x ∈ sortLe (fun a b => decide (a ≤ b)) xs, x = 0 :=
    fun x hx => h x ((sortLe_perm _ xs).subset hx)
  simp only [medianQ]
  split_ifs
  · exact getD_zero_of_all_zero _ _ hs
  · rw [getD_zero_of_all_zero _ _ hs, getD_zero_of_all_zero _ _ hs]
    norm_num

theorem sampleVar_all_zero (xs : List ℚ) (h : ∀ x ∈ xs, x = 0) (h2 : 2 ≤ xs.length) :
    sampleVar xs = some 0 := by
  simp only [sampleVar]
  rw [if_neg (by omega)]
  have hm : meanQ xs = 0 := meanQ_zero xs h
  have hz : ∀ y ∈ xs.map (fun x => (x - meanQ xs) ^ 2), y = 0 := by
    intro y hy
    rcases List.mem_map.mp hy with ⟨x, hx, rfl⟩
    rw [h x hx, hm]
    norm_num
  rw [List.sum_eq_zero hz, zero_div]

theorem sampleVar_short (xs : List ℚ) (h : xs.length < 2) : sampleVar xs = none := by
  simp [sampleVar, h]

theorem dailyCounts_all_zero (rows : List Row) (p : Row → Bool)
    (hp : rows.filter p = []) : ∀ x ∈ dailyCounts rows p, x = 0 := by
  intro x hx
  rcases List.mem_map.mp hx with ⟨d, _, rfl⟩
  have hnil : rows.filter (fun r => dateOf r.timestamp == d && p r) = [] := by
    rw [List.filter_eq_nil_iff] at hp ⊢
    intro a ha hcontra
    simp only [Bool.and_eq_true] at hcontra
    exact hp a ha hcontra.2
  rw [hnil]
  norm_num

theorem dailyCounts_length (rows : List Row) (p : Row → Bool) :
    (dailyCounts rows p).length = (datesAxis rows).length := List.length_map _ _

/-- C7 (amended): a request-type category that never occurs in the filtered
data yields an all-zero daily series, hence mean 0, median 0, and (when the
data spans at least two calendar days) standard deviation 0.  But over a
single calendar day every daily series has length 1 and the sample standard
deviation (`ddof=1`) is the undefined NaN value (`none`), not 0. -/
theorem summary_handles_missing_category (rows : List Row) (cat : String)
    (hmiss : rows.filter (fun r => r.request_type == cat) = []) :
    meanQ (dailyCounts rows (fun r => r.request_type == cat)) = 0 ∧
    medianQ (dailyCounts rows (fun r => r.request_type == cat)) = 0 ∧
    (2 ≤ (datesAxis rows).length →
      sampleVar (dailyCounts rows (fun r => r.request_type == cat)) = some 0) ∧
    (∀ q : Row → Bool, (datesAxis rows).length = 1 →
      sampleVar (dailyCounts rows q) = none) := by
  have hz := dailyCounts_all_zero rows _ hmiss
  refine ⟨meanQ_zero _ hz, medianQ_zero _ hz, ?_, ?_⟩
  · intro h2
    exact sampleVar_all_zero _ hz (by rw [dailyCounts_length]; exact h2)
  · intro q h1
    exact sampleVar_short _ (by rw [dailyCounts_length, h1]; norm_num)

/-- Witness for C7 (amended): the one-row table has no promo rows. -/
theorem summary_handles_missing_category_witness :
    baseOne.filter (fun r => r.request_type == "promo") = [] ∧
    (meanQ (dailyCounts baseOne (fun r => r.request_type == "promo")) = 0 ∧
     medianQ (dailyCounts baseOne (fun r => r.request_type == "promo")) = 0 ∧
     (2 ≤ (datesAxis baseOne).length →
       sampleVar (dailyCounts baseOne (fun r => r.request_type == "promo")) = some 0) ∧
     (∀ q : Row → Bool, (datesAxis baseOne).length = 1 →
       sampleVar (dailyCounts baseOne q) = none)) :=
  ⟨by decide, summary_handles_missing_category baseOne "promo" (by decide)⟩

/-- Counterexample for C7 as stated: the filtered data of the one-row table
spans exactly one calendar day, and all four standard deviations of the
summary table (raw and displayed alike) are the undefined NaN value
(`none`), not 0. -/
theorem summary_single_day_std_is_nan :
    (datesAxis baseOne).length = 1 ∧
    (summaryStatsRaw baseOne).map StatRow.stdSq = [none, none, none, none] ∧
    (summaryStatsDisplayed baseOne).map StatRow.stdSq = [none, none, none, none] ∧
    (none : Option ℚ) ≠ some 0 := by
  refine ⟨by decide, by decide, by decide, by decide⟩

theorem datesAxisDL_enrich (rows : List Row) :
    datesAxisDL (rows.map enrich) = datesAxis rows := by
  simp only [datesAxisDL, datesAxis, List.map_map]
  rfl

theorem dailyCountsDL_enrich (rows : List Row) (p : Row → Bool) :
    dailyCountsDL (rows.map enrich) (fun s => p s.row) = dailyCounts rows p := by
  simp only [dailyCountsDL, dailyCounts, datesAxisDL_enrich]
  refine List.map_congr_left (fun d _ => ?_)
  norm_cast
  rw [← List.countP_eq_length_filter, ← List.countP_eq_length_filter, List.countP_map]
  rfl

/-- C8: the exported report and the live summary table are computed from the
same retained row set by the same algorithm: for every non-empty filtered
row set, the download path returns exactly the live path's raw statistics
(same daily series, same mean/median, same sample-std convention); the live
path then only applies the 2-decimal display rounding. -/
theorem download_matches_live_summary (rows : List Row) (hne : rows ≠ []) :
    downloadSummary (rows.map enrich) = some (summaryStatsRaw rows) := by
  have hmap : (rows.map enrich).isEmpty = false := by
    cases rows with
    | nil => exact absurd rfl hne
    | cons r rs => rfl
  simp only [downloadSummary, hmap, Bool.false_eq_true, if_false]
  rw [dailyCountsDL_enrich rows (fun r => r.request_type == "demo"),
    dailyCountsDL_enrich rows (fun r => r.request_type == "ai_assist"),
    dailyCountsDL_enrich rows (fun r => r.request_type == "promo"),
    dailyCountsDL_enrich rows (fun r => r.job_type != "None")]
  rfl

/-- Witness for C8 at the concrete one-row retained set. -/
theorem download_matches_live_summary_witness :
    baseOne ≠ [] ∧ downloadSummary (baseOne.map enrich) = some (summaryStatsRaw baseOne) :=
  ⟨by decide, download_matches_live_summary baseOne (by decide)⟩

/-- C2: a reset trigger first restores every filter variable to its default,
so the whole output bundle (KPI cards, charts, summary table, retained row
set, error message) equals the one of the initial unfiltered load, and the
control values echoed back are exactly the defaults (no continent, no
countries, no products, dataset min/max dates). -/
theorem reset_restores_defaults (base : List Row) (inp : CallbackInput)
    (h : inp.trigger = Trigger.reset) :
    update_dashboard base inp = update_dashboard base (defaultInput base) ∧
    (update_dashboard base inp).continentEcho = none ∧
    (update_dashboard base inp).countriesEcho = [] ∧
    (update_dashboard base inp).productsEcho = [] ∧
    (update_dashboard base inp).startEcho = DateInput.valid (minDateOf base) ∧
    (update_dashboard base inp).endEcho = DateInput.valid (maxDateOf base) := by
  have he : effectiveInput base inp =
      { continent := none, countries := [], products := [],
        start_date := DateInput.valid (minDateOf base),
        end_date := DateInput.valid (maxDateOf base),
        trigger := Trigger.reset, trend_view := TrendView.average } := by
    simp [effectiveInput, h]
  have hd : effectiveInput base (defaultInput base) = defaultInput base := by
    simp [effectiveInput, defaultInput]
  have hmain : update_dashboard base inp = update_dashboard base (defaultInput base) := by
    simp only [update_dashboard]
    rw [he, hd]
    rfl
  refine ⟨hmain, ?_⟩
  simp only [update_dashboard, he, preDateRows, dateStep]
  split <;> simp [errorBundle, successOutput]

/-- Witness for C2: resetting from a dirty concrete filter state. -/
theorem reset_restores_defaults_witness :
    inpReset.trigger = Trigger.reset ∧
    (update_dashboard baseOne inpReset = update_dashboard baseOne (defaultInput baseOne) ∧
     (update_dashboard baseOne inpReset).continentEcho = none ∧
     (update_dashboard baseOne inpReset).countriesEcho = [] ∧
     (update_dashboard baseOne inpReset).productsEcho = [] ∧
     (update_dashboard baseOne inpReset).startEcho = DateInput.valid (minDateOf baseOne) ∧
     (update_dashboard baseOne inpReset).endEcho = DateInput.valid (maxDateOf baseOne)) :=
  ⟨rfl, reset_restores_defaults baseOne inpReset rfl⟩

/-- C1 (amended): the "Invalid Date Range" terminal state is produced exactly
by the `except` branch, i.e. when a date bound fails to parse: then every
chart is an "Invalid Date Range" placeholder, cards/rows/summary are empty
and the date echoes are the dataset bounds.  When both bounds parse but
start > end, the date filter instead empties the table and the cycle ends in
the distinct EmptyResult state ("No Data Available"), not InvalidDateRange. -/
theorem date_range_error_cases (base : List Row) (inp : CallbackInput)
    (htr : inp.trigger = Trigger.filterChange) :
    (dateStep inp.start_date inp.end_date (preDateRows base inp) = DateStepResult.parseError →
      update_dashboard base inp =
        errorBundle "Invalid Date Range" "Invalid date range selected"
          (minDateOf base) (maxDateOf base)) ∧
    (∀ ds de, inp.start_date = DateInput.valid ds → inp.end_date = DateInput.valid de →
      de < ds →
      update_dashboard base inp =
        errorBundle "No Data Available" "No data available for selected filters"
          (minDateOf base) (maxDateOf base)) := by
  have he : effectiveInput base inp = inp := by simp [effectiveInput, htr]
  constructor
  · intro hp
    simp only [update_dashboard, he, hp]
  · intro ds de hs hdq hlt
    have hnil : (preDateRows base inp).filter
        (fun r => ds ≤ dateOf r.timestamp && dateOf r.timestamp ≤ de) = [] := by
      rw [List.filter_eq_nil_iff]
      intro a _ hcontra
      simp only [Bool.and_eq_true, decide_eq_true_eq] at hcontra
      omega
    simp only [update_dashboard, he, hs, hdq, dateStep, hnil]
    simp

/-- Witness for C1 (amended): an unparseable bound and swapped parseable
bounds, on the concrete one-row table. -/
theorem date_range_error_cases_witness :
    update_dashboard baseOne inpUnparsable =
      errorBundle "Invalid Date Range" "Invalid date range selected"
        (minDateOf baseOne) (maxDateOf baseOne) ∧
    update_dashboard baseOne inpSwapped =
      errorBundle "No Data Available" "No data available for selected filters"
        (minDateOf baseOne) (maxDateOf baseOne) :=
  ⟨(date_range_error_cases baseOne inpUnparsable rfl).1 (by decide),
   (date_range_error_cases baseOne inpSwapped rfl).2 20089 19723 rfl rfl (by norm_num)⟩

/-- Counterexample for C1 as stated: with start 2025-01-01 after end
2024-01-01 (both parseable) the cycle yields the EmptyResult bundle —
"No Data Available" placeholders and the EmptyResult message — not the
InvalidDateRange state the claim demands. -/
theorem swapped_bounds_not_invalid_range :
    update_dashboard baseOne inpSwapped =
      errorBundle "No Data Available" "No data available for selected filters"
        (minDateOf baseOne) (maxDateOf baseOne) ∧
    (update_dashboard baseOne inpSwapped).errorMsg ≠ "Invalid date range selected" ∧
    (update_dashboard baseOne inpSwapped).revenueBar ≠ Chart.placeholder "Invalid Date Range" := by
  refine ⟨by decide, by decide, by decide⟩

/-- C9 (amended): a cycle that ends in EmptyResult returns "No Data
Available" placeholders for every chart, empties the KPI cards, retained
row set and summary table, and — exactly like the InvalidDateRange case —
resets the echoed control values to their defaults (continent None,
countries [], products [], date fields to the dataset bounds), rather than
leaving the user's selections visible. -/
theorem empty_result_resets_controls (base : List Row) (inp : CallbackInput) (sE eE : DateInput)
    (h : dateStep (effectiveInput base inp).start_date (effectiveInput base inp).end_date
        (preDateRows base (effectiveInput base inp)) = DateStepResult.ok sE eE []) :
    update_dashboard base inp =
      errorBundle "No Data Available" "No data available for selected filters"
        (minDateOf base) (maxDateOf base) := by
  simp only [update_dashboard, h]
  simp

/-- Witness for C9 (amended): continent "Asia" against the Europe-only table. -/
theorem empty_result_resets_controls_witness :
    dateStep (effectiveInput baseOne inpAsia).start_date (effectiveInput baseOne inpAsia).end_date
        (preDateRows baseOne (effectiveInput baseOne inpAsia)) =
      DateStepResult.ok DateInput.null DateInput.null [] ∧
    update_dashboard baseOne inpAsia =
      errorBundle "No Data Available" "No data available for selected filters"
        (minDateOf baseOne) (maxDateOf baseOne) :=
  ⟨by decide,
   empty_result_resets_controls baseOne inpAsia DateInput.null DateInput.null (by decide)⟩

/-- Counterexample for C9 as stated: filtering the Europe-only table by
continent "Asia" yields EmptyResult, and the controller echoes `None` for
the continent control — the user's selection "Asia" is not left visible,
and the date fields are reset to the dataset bounds. -/
theorem empty_result_discards_user_selection :
    (update_dashboard baseOne inpAsia).revenueBar = Chart.placeholder "No Data Available" ∧
    (update_dashboard baseOne inpAsia).errorMsg = "No data available for selected filters" ∧
    (update_dashboard baseOne inpAsia).continentEcho = none ∧
    (update_dashboard baseOne inpAsia).continentEcho ≠ inpAsia.continent ∧
    (update_dashboard baseOne inpAsia).startEcho = DateInput.valid (minDateOf baseOne) ∧
    inpAsia.continent = some "Asia" := by
  refine ⟨by decide, by decide, by decide, by decide, by decide, rfl⟩

theorem mem_preDateRows (base : List Row) (e : CallbackInput) :
    ∀ r ∈ preDateRows base e, r ∈ base := by
  intro r hr
  simp only [preDateRows, filterContinent_eq_filter, filterCountries_eq_filter,
    filterProducts_eq_filter] at hr
  exact List.mem_of_mem_filter (List.mem_of_mem_filter (List.mem_of_mem_filter hr))

theorem dateStep_ok_sub (s e : DateInput) (rows : List Row) (a b : DateInput) (f4 : List Row)
    (h : dateStep s e rows = DateStepResult.ok a b f4) : ∀ r ∈ f4, r ∈ rows := by
  cases s <;> cases e <;> simp only [dateStep] at h <;>
    first
      | (injection h with h1 h2 h3
         subst h3
         exact fun r hr => hr)
      | (injection h with h1 h2 h3
         subst h3
         exact fun r hr => List.mem_of_mem_filter hr)
      | exact absurd h (by simp)

/-- C10: every cycle leaves the base table unchanged (it operates on a fresh
copy), and every record of the retained row set is one of the base table's
schema rows together with the two derived columns `date` and `hour`
computed from its timestamp. -/
theorem cycle_preserves_base_and_enriches (s : AppState) (inp : CallbackInput) :
    (runCycle s inp).1.base = s.base ∧
    ∀ sr ∈ (runCycle s inp).2.retained,
      sr.row ∈ s.base ∧ sr.date = dateOf sr.row.timestamp ∧ sr.hour = hourOf sr.row.timestamp := by
  refine ⟨rfl, ?_⟩
  have hpre := mem_preDateRows s.base (effectiveInput s.base inp)
  have hret : (runCycle s inp).2.retained = (update_dashboard s.base inp).retained := rfl
  rw [hret]
  rcases hds : dateStep (effectiveInput s.base inp).start_date
      (effectiveInput s.base inp).end_date
      (preDateRows s.base (effectiveInput s.base inp)) with _ | ⟨sE, eE, f4⟩
  · simp only [update_dashboard, hds]
    simp [errorBundle]
  · simp only [update_dashboard, hds]
    by_cases hemp : f4.isEmpty
    · simp [hemp, errorBundle]
    · simp only [hemp, Bool.false_eq_true, if_false, successOutput]
      intro sr hsr
      rcases List.mem_map.mp hsr with ⟨r, hr, rfl⟩
      exact ⟨hpre r (dateStep_ok_sub _ _ _ _ _ _ hds r hr), rfl, rfl⟩
